import Mathlib

/-!
Shallow embedding of the led-strip driver (src/led.rs).

Modelling conventions:
* Pin activity is a trace: a `List Bool` where `true` records one `set_high()`
  call and `false` one `set_low()` call (one "pulse unit" each).
* `u8`/`u32`/`usize` values are `Nat`, with explicit `&&& 0xFF` masks and
  `% 2 ^ 32` reductions exactly where the Rust code truncates.
* `f64` is modelled as `ℚ`; the factors appearing in the code and its tests
  (0.5, 0.25, 1.0, ...) are dyadic rationals on which IEEE 754 double
  arithmetic is exact, so the rational model coincides with the machine one.
* A Rust panic is the `panicked` outcome of `RustResult`; a `Result::Err`
  value returned to the caller would be the `err` outcome.  The source's
  `parse` calls `.unwrap()`, so it can only ever produce `ok` or `panicked`.
* Rust strings are modelled through their character lists (`String.data`);
  for the inputs whose fate differs, both the byte-level and the char-level
  reading panic, so the distinction is immaterial to the claims.
-/

/-- The error component of Rust's `u8::from_str_radix` result
(`core::num::ParseIntError` kinds reachable for an unsigned target type). -/
inductive ParseIntError where
  | empty
  | invalidDigit
  | posOverflow
deriving DecidableEq

/-- Outcome of running a piece of Rust code: a returned value, a returned
`Err` value, or a panic. -/
inductive RustResult (α : Type) where
  | ok : α → RustResult α
  | err : ParseIntError → RustResult α
  | panicked : RustResult α
deriving DecidableEq

/-- `true` iff the outcome is a normally returned value. -/
def RustResult.isOk {α : Type} : RustResult α → Bool
  | .ok _ => true
  | _ => false

/-- `char::to_digit(16)` from Rust core: value of a hexadecimal digit. -/
def toDigit16 (c : Char) : Option Nat :=
  if 48 ≤ c.toNat ∧ c.toNat ≤ 57 then some (c.toNat - 48)
  else if 97 ≤ c.toNat ∧ c.toNat ≤ 102 then some (c.toNat - 87)
  else if 65 ≤ c.toNat ∧ c.toNat ≤ 70 then some (c.toNat - 55)
  else none

/-- The digit-accumulation loop of `u8::from_str_radix(_, 16)`: each step
multiplies by the radix and adds the next digit, failing with `PosOverflow`
when the `u8` range (0..=255) is exceeded. -/
def fromStrRadixDigits : List Char → Nat → Except ParseIntError Nat
  | [], acc => .ok acc
  | c :: rest, acc =>
    match toDigit16 c with
    | none => .error .invalidDigit
    | some d =>
      if 255 < acc * 16 + d then .error .posOverflow
      else fromStrRadixDigits rest (acc * 16 + d)

/-- `u8::from_str_radix(s, 16)`: empty input is `Empty`; a leading `'+'` is
consumed (a sign is only accepted for signed target types, so `'-'` falls
through to the digit loop and fails as an invalid digit). -/
def u8_from_str_radix16 (s : List Char) : Except ParseIntError Nat :=
  match s with
  | [] => .error .empty
  | c :: rest =>
    if c = '+' then
      match rest with
      | [] => .error .invalidDigit
      | _ :: _ => fromStrRadixDigits rest 0
    else fromStrRadixDigits s 0

/-- Rust slice indexing `&s[lo..hi]`: panics (here: `none`) when the range is
out of bounds. -/
def strSlice (s : List Char) (lo hi : Nat) : Option (List Char) :=
  if lo ≤ hi ∧ hi ≤ s.length then some ((s.drop lo).take (hi - lo)) else none

/-- `parse` from src/led.rs: slices the three 2-character pairs, parses each
with `u8::from_str_radix(_, 16)` chained by `and_then`, and `.unwrap()`s the
final `Result` — so a slicing failure or an invalid pair panics, and no error
value is ever returned. -/
def parse (color : List Char) : RustResult (Nat × Nat × Nat) :=
  match strSlice color 0 2 with
  | none => .panicked
  | some s1 =>
    match u8_from_str_radix16 s1 with
    | .error _ => .panicked
    | .ok r =>
      match strSlice color 2 4 with
      | none => .panicked
      | some s2 =>
        match u8_from_str_radix16 s2 with
        | .error _ => .panicked
        | .ok g =>
          match strSlice color 4 6 with
          | none => .panicked
          | some s3 =>
            match u8_from_str_radix16 s3 with
            | .error _ => .panicked
            | .ok b => .ok (r, g, b)

/-- The `Color` enum from src/led.rs. -/
inductive Color where
  | RGB : Nat → Nat → Nat → Color
  | NUM : Nat → Color
  | HEX : String → Color
  | Black
  | Gray
  | White
  | Red
  | Green
  | Blue
  | Cyan
  | Magenta
  | Yellow
  | Orange
  | Purple
  | Pink
  | Turquoise
deriving DecidableEq

/-- `Color::to_rgb` from src/led.rs.  Note the `NUM` arm is a verbatim
translation of the source: `((color << 8) & 0xFF, color & 0xFF,
(color << 16) & 0xFF)` with `u32` left shifts (wrapping at `2 ^ 32`). -/
def Color.to_rgb : Color → RustResult (Nat × Nat × Nat)
  | .RGB red green blue => .ok (red, green, blue)
  | .NUM color =>
    .ok (((color <<< 8) % 2 ^ 32) &&& 0xFF, color &&& 0xFF,
      ((color <<< 16) % 2 ^ 32) &&& 0xFF)
  | .HEX color =>
    match parse color.data with
    | .ok bytes => .ok bytes
    | .err e => .err e
    | .panicked => .panicked
  | .Black => .ok (0, 0, 0)
  | .Gray => .ok (127, 127, 127)
  | .White => .ok (255, 255, 255)
  | .Red => .ok (255, 0, 0)
  | .Green => .ok (0, 255, 0)
  | .Blue => .ok (0, 0, 255)
  | .Cyan => .ok (0, 255, 255)
  | .Magenta => .ok (255, 0, 255)
  | .Yellow => .ok (255, 255, 0)
  | .Orange => .ok (255, 127, 0)
  | .Purple => .ok (127, 0, 255)
  | .Pink => .ok (255, 127, 255)
  | .Turquoise => .ok (0, 127, 255)

/-- `f64::clamp(self, lo, hi)` from Rust core: `if self < lo { lo } else if
self > hi { hi } else { self }`. -/
def rustClamp (x lo hi : ℚ) : ℚ := if x < lo then lo else if hi < x then hi else x

/-- `(x).clamp(0.0, 255.0) as u8`: clamp to the channel range, then truncate
toward zero (on the clamped non-negative range, truncation is the floor). -/
def clamp_as_u8 (x : ℚ) : Nat := (⌊rustClamp x 0 255⌋).toNat

/-- `Color::opacity` from src/led.rs: scale each channel of `to_rgb` by the
factor, clamp and truncate, repack as `Color::RGB`.  The `to_rgb` call can
panic (hex variant), which propagates. -/
def Color.opacity (c : Color) (opacity : ℚ) : RustResult Color :=
  match c.to_rgb with
  | .ok (red, green, blue) =>
    .ok (Color.RGB (clamp_as_u8 ((red : ℚ) * opacity))
      (clamp_as_u8 ((green : ℚ) * opacity))
      (clamp_as_u8 ((blue : ℚ) * opacity)))
  | .err e => .err e
  | .panicked => .panicked

/-- `Color::mix_ratio` from src/led.rs: per channel
`(self_channel * self_ratio + other_channel * other_ratio).clamp(0.0, 255.0)
as u8`, repacked as `Color::RGB`.  `self.to_rgb()` runs before
`color.to_rgb()`. -/
def Color.mix_ratio (c color : Color) (self_ratio other_ratio : ℚ) : RustResult Color :=
  match c.to_rgb with
  | .ok (red, green, blue) =>
    match color.to_rgb with
    | .ok (other_red, other_green, other_blue) =>
      .ok (Color.RGB
        (clamp_as_u8 ((red : ℚ) * self_ratio + (other_red : ℚ) * other_ratio))
        (clamp_as_u8 ((green : ℚ) * self_ratio + (other_green : ℚ) * other_ratio))
        (clamp_as_u8 ((blue : ℚ) * self_ratio + (other_blue : ℚ) * other_ratio)))
    | .err e => .err e
    | .panicked => .panicked
  | .err e => .err e
  | .panicked => .panicked

/-- `Color::mix` from src/led.rs: `self.mix_ratio(color, 0.5, 0.5)`. -/
def Color.mix (c color : Color) : RustResult Color :=
  c.mix_ratio color 0.5 0.5

/-- `zero` from src/led.rs: one `set_high()` followed by five `set_low()`. -/
def zero : List Bool := [true, false, false, false, false, false]

/-- `one` from src/led.rs: three `set_high()` followed by three `set_low()`. -/
def one : List Bool := [true, true, true, false, false, false]

/-- `send_bit` from src/led.rs: `0` emits the `zero` pattern, anything else
the `one` pattern. -/
def send_bit (bit : Nat) : List Bool :=
  match bit with
  | 0 => zero
  | _ => one

/-- `send_byte` from src/led.rs: for `i` in `0..8`, send the bit
`byte & (1 << (7 - i))` — most significant bit first. -/
def send_byte (byte : Nat) : List Bool :=
  ((List.range 8).map (fun i => send_bit (byte &&& (1 <<< (7 - i))))).flatten

/-- The strip handle: the pin itself is pure emission in this model, so only
the LED count is data. -/
structure LedStrip where
  led_count : Nat

/-- `LedStrip::rgb` from src/led.rs: bytes are sent in the order green, red,
blue. -/
def LedStrip.rgb (red green blue : Nat) : List Bool :=
  send_byte green ++ send_byte red ++ send_byte blue

/-- `LedStrip::color` from src/led.rs: convert via `to_rgb` (which may panic
on the hex variant) and delegate to `rgb`. -/
def LedStrip.color (color : Color) : RustResult (List Bool) :=
  match color.to_rgb with
  | .ok (red, green, blue) => .ok (LedStrip.rgb red green blue)
  | .err e => .err e
  | .panicked => .panicked

/-- `LedStrip::color_number` from src/led.rs — verbatim the same (shifted)
channel expressions as the `NUM` arm of `to_rgb`, passed to `rgb`. -/
def LedStrip.color_number (color : Nat) : List Bool :=
  LedStrip.rgb (((color <<< 8) % 2 ^ 32) &&& 0xFF) (color &&& 0xFF)
    (((color <<< 16) % 2 ^ 32) &&& 0xFF)

/-- The loop body of `LedStrip::each` over an explicit index list: render each
index's color in order, concatenating the traces; a panic aborts the frame. -/
def renderSeq (callback : Nat → Color) : List Nat → RustResult (List Bool)
  | [] => .ok []
  | i :: idxs =>
    match LedStrip.color (callback i) with
    | .ok t =>
      match renderSeq callback idxs with
      | .ok ts => .ok (t ++ ts)
      | .err e => .err e
      | .panicked => .panicked
    | .err e => .err e
    | .panicked => .panicked

/-- `LedStrip::each` from src/led.rs: `for led_index in 0..self.led_count`
render `callback(led_index)` via `color`. -/
def LedStrip.each (strip : LedStrip) (callback : Nat → Color) : RustResult (List Bool) :=
  renderSeq callback (List.range strip.led_count)

/-- `set_low_for` from src/led.rs: one `set_low()` then `delay_ns(ns)`;
modelled as the pin level driven (low = `false`) paired with the nanosecond
count handed to the delay primitive. -/
def set_low_for (ns : Nat) : Bool × Nat := (false, ns)

/-- `reset` from src/led.rs: `set_low_for(led, us * 1_000)` with the
multiplication performed on `u32` (wrapping at `2 ^ 32`). -/
def reset (us : Nat) : Bool × Nat := set_low_for ((us * 1000) % 2 ^ 32)

/-- `LedStrip::rest` from src/led.rs: delegates to `reset`. -/
def LedStrip.rest (us : Nat) : Bool × Nat := reset us

/-- Applying `.to_rgb()` to the `Color` produced by a fallible color
operation, propagating a panic — models e.g. `c.opacity(f).to_rgb()`. -/
def result_to_rgb (r : RustResult Color) : RustResult (Nat × Nat × Nat) :=
  match r with
  | .ok c => c.to_rgb
  | .err e => .err e
  | .panicked => .panicked

/-- Spec-side: a hexadecimal digit character. -/
def isHexDigit (c : Char) : Bool := (toDigit16 c).isSome

/-- Spec-side: the value of a hexadecimal digit character. -/
def hexDigitVal (c : Char) : Nat := (toDigit16 c).getD 0

/-- Spec-side: a 2-character pair accepted by `u8::from_str_radix(_, 16)` —
two hex digits, or a leading `'+'` followed by a hex digit. -/
def pairAccepted (a b : Char) : Bool := (isHexDigit a || a = '+') && isHexDigit b

/-- Spec-side: a hex color string the source's `parse` accepts — at least six
characters whose three leading 2-character pairs are each accepted. -/
def hexWellFormed : List Char → Bool
  | a :: b :: c :: d :: e :: f :: _ =>
    pairAccepted a b && pairAccepted c d && pairAccepted e f
  | _ => false

/-- Spec-side (wire contract, §6): the bits of one byte, most significant
first. -/
def specByteBits (byte : Nat) : List Bool :=
  (List.range 8).map (fun i => byte.testBit (7 - i))

/-- Spec-side (wire contract, §6): a 0 bit is one high unit then five low
units; a 1 bit is three high units then three low units. -/
def specBitPulses (b : Bool) : List Bool :=
  if b then List.replicate 3 true ++ List.replicate 3 false
  else List.replicate 1 true ++ List.replicate 5 false

/-- Spec-side: the pulse trace of one LED's color (empty if conversion does
not return normally). -/
def renderList (c : Color) : List Bool :=
  match c.to_rgb with
  | .ok (red, green, blue) => LedStrip.rgb red green blue
  | _ => []

/-! ## Bit- and byte-level lemmas -/

theorem send_bit_ne_zero (bit : Nat) (h : bit ≠ 0) : send_bit bit = one := by
  cases bit with
  | zero => exact absurd rfl h
  | succ n => rfl

theorem send_bit_and_pow (byte k : Nat) :
    send_bit (byte &&& (1 <<< k)) = specBitPulses (byte.testBit k) := by
  rw [Nat.one_shiftLeft, Nat.and_two_pow]
  cases h : byte.testBit k
  · simp only [Bool.toNat_false, Nat.zero_mul]
    decide
  · simp only [Bool.toNat_true, Nat.one_mul]
    rw [send_bit_ne_zero _ (pow_ne_zero k two_ne_zero)]
    decide

theorem send_byte_eq_spec (byte : Nat) :
    send_byte byte = ((specByteBits byte).map specBitPulses).flatten := by
  have h8 : List.range 8 = [0, 1, 2, 3, 4, 5, 6, 7] := rfl
  unfold send_byte specByteBits
  rw [h8]
  simp only [List.map_cons, List.map_nil, List.flatten_cons, List.flatten_nil,
    List.append_nil, send_bit_and_pow]

theorem send_bit_length (bit : Nat) : (send_bit bit).length = 6 := by
  cases bit <;> rfl

theorem send_byte_length (byte : Nat) : (send_byte byte).length = 48 := by
  have h8 : List.range 8 = [0, 1, 2, 3, 4, 5, 6, 7] := rfl
  unfold send_byte
  rw [h8]
  simp [send_bit_length]

theorem rgb_length (red green blue : Nat) : (LedStrip.rgb red green blue).length = 144 := by
  simp [LedStrip.rgb, send_byte_length]

/-- C3: `LedStrip::rgb` emits the channels onto the pin in the fixed order
green, red, blue, each byte most-significant bit first, where a 0 bit is one
high pulse unit then five low units and a 1 bit is three high units then three
low units — 6 units per bit, 3 * 8 * 6 units per pixel. -/
theorem c3_rgb_wire_encoding (red green blue : Nat) :
    LedStrip.rgb red green blue =
      ((specByteBits green ++ specByteBits red ++ specByteBits blue).map specBitPulses).flatten ∧
    (LedStrip.rgb red green blue).length = 3 * 8 * 6 := by
  constructor
  · simp [LedStrip.rgb, send_byte_eq_spec]
  · rw [rgb_length]

/-- C1: at the packed value 0xFF0000 (pure red in canonical RRGGBB packing)
the code's `Color::NUM(n).to_rgb()` returns (0, 0, 0) — because the source
left-shifts before masking, `(n << 8) & 0xFF` and `(n << 16) & 0xFF` are
always 0 — while the canonical shift/mask extraction of the same value is
(255, 0, 0); `LedStrip::color_number` emits exactly the same wrong triple. -/
theorem c1_num_channels_bug :
    Color.to_rgb (Color.NUM 0xFF0000) = .ok (0, 0, 0) ∧
    ((0xFF0000 >>> 16) &&& 0xFF, (0xFF0000 >>> 8) &&& 0xFF, 0xFF0000 &&& 0xFF) =
      ((255 : Nat), (0 : Nat), (0 : Nat)) ∧
    LedStrip.color_number 0xFF0000 = LedStrip.rgb 0 0 0 := by
  refine ⟨by decide, by decide, by decide⟩

/-- C7: `Color::mix` is exactly `mix_ratio` with both weights 0.5. -/
theorem c7_mix_is_equal_weights (a b : Color) : a.mix b = a.mix_ratio b 0.5 0.5 := rfl

/-- C8: every named color constant converts to exactly its documented
canonical RGB triple. -/
theorem c8_named_color_table :
    Color.Black.to_rgb = .ok (0, 0, 0) ∧
    Color.Gray.to_rgb = .ok (127, 127, 127) ∧
    Color.White.to_rgb = .ok (255, 255, 255) ∧
    Color.Red.to_rgb = .ok (255, 0, 0) ∧
    Color.Green.to_rgb = .ok (0, 255, 0) ∧
    Color.Blue.to_rgb = .ok (0, 0, 255) ∧
    Color.Cyan.to_rgb = .ok (0, 255, 255) ∧
    Color.Magenta.to_rgb = .ok (255, 0, 255) ∧
    Color.Yellow.to_rgb = .ok (255, 255, 0) ∧
    Color.Orange.to_rgb = .ok (255, 127, 0) ∧
    Color.Purple.to_rgb = .ok (127, 0, 255) ∧
    Color.Pink.to_rgb = .ok (255, 127, 255) ∧
    Color.Turquoise.to_rgb = .ok (0, 127, 255) :=
  ⟨rfl, rfl, rfl, rfl, rfl, rfl, rfl, rfl, rfl, rfl, rfl, rfl, rfl⟩

/-- C10: `LedStrip::rest(us)` drives the pin low for `us * 1000` nanoseconds
computed in `u32` arithmetic, which wraps modulo `2 ^ 32`; whenever
`us > 4294967` the wrapped product is strictly shorter than the requested
duration. -/
theorem c10_rest_wraps (us : Nat) (h : us < 2 ^ 32) :
    LedStrip.rest us = (false, (us * 1000) % 2 ^ 32) ∧
    (4294967 < us → (LedStrip.rest us).2 < us * 1000) := by
  refine ⟨rfl, fun hgt => ?_⟩
  have hpow : (2 : Nat) ^ 32 = 4294967296 := by norm_num
  have h1 : 2 ^ 32 ≤ us * 1000 := by omega
  calc (LedStrip.rest us).2 = (us * 1000) % 2 ^ 32 := rfl
    _ < 2 ^ 32 := Nat.mod_lt _ (by norm_num)
    _ ≤ us * 1000 := h1

theorem c10_witness :
    5000000 < 2 ^ 32 ∧
    (LedStrip.rest 5000000 = (false, (5000000 * 1000) % 2 ^ 32) ∧
      (4294967 < 5000000 → (LedStrip.rest 5000000).2 < 5000000 * 1000)) :=
  ⟨by norm_num, c10_rest_wraps 5000000 (by norm_num)⟩

/-! ## Color-algebra claims -/

theorem clamp_as_u8_le_255 (x : ℚ) : clamp_as_u8 x ≤ 255 := by
  have h : rustClamp x 0 255 ≤ 255 := by
    unfold rustClamp
    split
    · norm_num
    · split
      · exact le_refl _
      · exact le_of_not_lt (by assumption)
  have h2 : ⌊rustClamp x 0 255⌋ ≤ 255 := by
    calc ⌊rustClamp x 0 255⌋ ≤ ⌊(255 : ℚ)⌋ := Int.floor_mono h
      _ = 255 := by norm_num
  unfold clamp_as_u8
  omega

/-- C5: whenever a color converts to the channel triple (r, g, b),
`opacity(f)` followed by `to_rgb()` yields, per channel, the rational product
`channel * f` clamped to [0, 255] and truncated toward zero — for every
factor, also outside [0, 1]. -/
theorem c5_opacity_scales (c : Color) (f : ℚ) (r g b : Nat)
    (h : c.to_rgb = .ok (r, g, b)) :
    result_to_rgb (c.opacity f) =
      .ok (clamp_as_u8 ((r : ℚ) * f), clamp_as_u8 ((g : ℚ) * f),
        clamp_as_u8 ((b : ℚ) * f)) := by
  have hop : c.opacity f = .ok (Color.RGB (clamp_as_u8 ((r : ℚ) * f))
      (clamp_as_u8 ((g : ℚ) * f)) (clamp_as_u8 ((b : ℚ) * f))) := by
    unfold Color.opacity
    rw [h]
  rw [hop]
  rfl

theorem c5_witness :
    Color.Orange.to_rgb = .ok (255, 127, 0) ∧
    result_to_rgb (Color.Orange.opacity 0.5) =
      .ok (clamp_as_u8 (((255 : Nat) : ℚ) * 0.5), clamp_as_u8 (((127 : Nat) : ℚ) * 0.5),
        clamp_as_u8 (((0 : Nat) : ℚ) * 0.5)) ∧
    result_to_rgb (Color.Orange.opacity 0.5) = .ok (127, 63, 0) :=
  ⟨rfl, c5_opacity_scales Color.Orange 0.5 255 127 0 rfl, by
    rw [c5_opacity_scales Color.Orange 0.5 255 127 0 rfl]
    norm_num [clamp_as_u8, rustClamp]
    decide⟩

/-- C6: whenever both colors convert to channel triples, `mix_ratio` yields,
per channel, `self_channel * self_weight + other_channel * other_weight`
clamped to [0, 255] and truncated toward zero, as an explicit-RGB color; each
resulting channel is at most 255 for every pair of weights — clamping, never
wrapping. -/
theorem c6_mix_ratio_blends (c1 c2 : Color) (w1 w2 : ℚ) (r1 g1 b1 r2 g2 b2 : Nat)
    (h1 : c1.to_rgb = .ok (r1, g1, b1)) (h2 : c2.to_rgb = .ok (r2, g2, b2)) :
    result_to_rgb (c1.mix_ratio c2 w1 w2) =
      .ok (clamp_as_u8 ((r1 : ℚ) * w1 + (r2 : ℚ) * w2),
        clamp_as_u8 ((g1 : ℚ) * w1 + (g2 : ℚ) * w2),
        clamp_as_u8 ((b1 : ℚ) * w1 + (b2 : ℚ) * w2)) ∧
    clamp_as_u8 ((r1 : ℚ) * w1 + (r2 : ℚ) * w2) ≤ 255 ∧
    clamp_as_u8 ((g1 : ℚ) * w1 + (g2 : ℚ) * w2) ≤ 255 ∧
    clamp_as_u8 ((b1 : ℚ) * w1 + (b2 : ℚ) * w2) ≤ 255 := by
  refine ⟨?_, clamp_as_u8_le_255 _, clamp_as_u8_le_255 _, clamp_as_u8_le_255 _⟩
  have hmix : c1.mix_ratio c2 w1 w2 = .ok (Color.RGB
      (clamp_as_u8 ((r1 : ℚ) * w1 + (r2 : ℚ) * w2))
      (clamp_as_u8 ((g1 : ℚ) * w1 + (g2 : ℚ) * w2))
      (clamp_as_u8 ((b1 : ℚ) * w1 + (b2 : ℚ) * w2))) := by
    unfold Color.mix_ratio
    rw [h1, h2]
  rw [hmix]
  rfl

theorem c6_witness :
    Color.Red.to_rgb = .ok (255, 0, 0) ∧
    Color.Green.to_rgb = .ok (0, 255, 0) ∧
    (result_to_rgb (Color.Red.mix_ratio Color.Green 1 1) =
      .ok (clamp_as_u8 (((255 : Nat) : ℚ) * 1 + ((0 : Nat) : ℚ) * 1),
        clamp_as_u8 (((0 : Nat) : ℚ) * 1 + ((255 : Nat) : ℚ) * 1),
        clamp_as_u8 (((0 : Nat) : ℚ) * 1 + ((0 : Nat) : ℚ) * 1)) ∧
      clamp_as_u8 (((255 : Nat) : ℚ) * 1 + ((0 : Nat) : ℚ) * 1) ≤ 255 ∧
      clamp_as_u8 (((0 : Nat) : ℚ) * 1 + ((255 : Nat) : ℚ) * 1) ≤ 255 ∧
      clamp_as_u8 (((0 : Nat) : ℚ) * 1 + ((0 : Nat) : ℚ) * 1) ≤ 255) ∧
    result_to_rgb (Color.Red.mix_ratio Color.Green 1 1) = .ok (255, 255, 0) :=
  ⟨rfl, rfl, c6_mix_ratio_blends Color.Red Color.Green 1 1 255 0 0 0 255 0 rfl rfl, by
    rw [(c6_mix_ratio_blends Color.Red Color.Green 1 1 255 0 0 0 255 0 rfl rfl).1]
    norm_num [clamp_as_u8, rustClamp]
    decide⟩

/-! ## Frame rendering (`each`) -/

theorem renderSeq_ok (cb : Nat → Color) (l : List Nat)
    (h : ∀ i ∈ l, ((cb i).to_rgb).isOk = true) :
    renderSeq cb l = .ok ((l.map (fun i => renderList (cb i))).flatten) := by
  induction l with
  | nil => rfl
  | cons i t ih =>
    have hi := h i (List.mem_cons_self i t)
    have ht := ih (fun j hj => h j (List.mem_cons_of_mem _ hj))
    cases hr : (cb i).to_rgb with
    | ok v =>
      obtain ⟨r, g, b⟩ := v
      simp only [renderSeq, LedStrip.color, hr, ht, renderList, List.map_cons,
        List.flatten_cons]
    | err e => simp [hr, RustResult.isOk] at hi
    | panicked => simp [hr, RustResult.isOk] at hi

theorem renderList_length (c : Color) (h : (c.to_rgb).isOk = true) :
    (renderList c).length = 144 := by
  cases hr : c.to_rgb with
  | ok v =>
    obtain ⟨r, g, b⟩ := v
    simp only [renderList, hr, rgb_length]
  | err e => simp [hr, RustResult.isOk] at h
  | panicked => simp [hr, RustResult.isOk] at h

theorem renderFlatten_length (cb : Nat → Color) (l : List Nat)
    (h : ∀ i ∈ l, ((cb i).to_rgb).isOk = true) :
    ((l.map (fun i => renderList (cb i))).flatten).length = l.length * 144 := by
  induction l with
  | nil => rfl
  | cons i t ih =>
    have hi := renderList_length (cb i) (h i (List.mem_cons_self i t))
    have ht := ih (fun j hj => h j (List.mem_cons_of_mem _ hj))
    simp only [List.map_cons, List.flatten_cons, List.length_append, hi, ht,
      List.length_cons]
    ring

/-- C4: when every callback result converts successfully, `each` renders the
callback's color for each index 0, 1, ..., led_count - 1, in that order (the
frame trace is the in-order concatenation of the per-index renders), and the
frame is led_count * 24 bits of 6 pulse units each. -/
theorem c4_each_renders_frame (strip : LedStrip) (callback : Nat → Color)
    (h : ∀ i, i < strip.led_count → ((callback i).to_rgb).isOk = true) :
    strip.each callback =
      .ok (((List.range strip.led_count).map (fun i => renderList (callback i))).flatten) ∧
    (((List.range strip.led_count).map (fun i => renderList (callback i))).flatten).length =
      strip.led_count * (24 * 6) := by
  have h' : ∀ i ∈ List.range strip.led_count, ((callback i).to_rgb).isOk = true :=
    fun i hi => h i (List.mem_range.mp hi)
  refine ⟨renderSeq_ok callback _ h', ?_⟩
  rw [renderFlatten_length callback _ h', List.length_range]

theorem c4_witness :
    (∀ i, i < (LedStrip.mk 2).led_count → ((Color.Black).to_rgb).isOk = true) ∧
    ((LedStrip.mk 2).each (fun _ => Color.Black) =
      .ok (((List.range (LedStrip.mk 2).led_count).map
        (fun i => renderList ((fun _ => Color.Black) i))).flatten) ∧
      (((List.range (LedStrip.mk 2).led_count).map
        (fun i => renderList ((fun _ => Color.Black) i))).flatten).length =
        (LedStrip.mk 2).led_count * (24 * 6)) :=
  ⟨fun _ _ => rfl, c4_each_renders_frame (LedStrip.mk 2) (fun _ => Color.Black) (fun _ _ => rfl)⟩

/-! ## Hex parsing -/

/-- C2 counterexample: on the malformed hex string "zz0000" (first pair is not
hexadecimal) the conversion panics — the outcome is `panicked`, not an `err`
carrying a parse error, so no error value reaches the caller. -/
theorem c2_counterexample :
    Color.to_rgb (Color.HEX "zz0000") = .panicked ∧
    Color.to_rgb (Color.HEX "zz0000") ≠ .err ParseIntError.empty ∧
    Color.to_rgb (Color.HEX "zz0000") ≠ .err ParseIntError.invalidDigit ∧
    Color.to_rgb (Color.HEX "zz0000") ≠ .err ParseIntError.posOverflow := by
  refine ⟨by decide, by decide, by decide, by decide⟩

theorem toDigit16_lt (c : Char) (d : Nat) (h : toDigit16 c = some d) : d < 16 := by
  unfold toDigit16 at h
  split_ifs at h <;> simp only [Option.some.injEq] at h <;> omega

theorem isHexDigit_some (c : Char) (h : isHexDigit c = true) :
    toDigit16 c = some (hexDigitVal c) := by
  unfold isHexDigit at h
  obtain ⟨d, hd⟩ := Option.isSome_iff_exists.mp h
  simp [hexDigitVal, hd]

theorem isHexDigit_none (c : Char) (h : isHexDigit c = false) : toDigit16 c = none := by
  unfold isHexDigit at h
  cases hc : toDigit16 c with
  | none => rfl
  | some d => rw [hc] at h; simp at h

theorem fromStrRadixDigits_pair (a b : Char) (da db : Nat)
    (ha : toDigit16 a = some da) (hb : toDigit16 b = some db) :
    fromStrRadixDigits [a, b] 0 = .ok (da * 16 + db) := by
  have la := toDigit16_lt a da ha
  have lb := toDigit16_lt b db hb
  simp only [fromStrRadixDigits, ha, hb]
  rw [if_neg (by omega), if_neg (by omega)]
  congr 1
  omega

theorem u8_pair_hex (a b : Char) (ha : isHexDigit a = true) (hb : isHexDigit b = true) :
    u8_from_str_radix16 [a, b] = .ok (hexDigitVal a * 16 + hexDigitVal b) := by
  have hne : a ≠ '+' := by
    rintro rfl
    revert ha
    decide
  simp only [u8_from_str_radix16]
  rw [if_neg hne]
  exact fromStrRadixDigits_pair a b _ _ (isHexDigit_some a ha) (isHexDigit_some b hb)

theorem u8_pair_accepted (a b : Char) (h : pairAccepted a b = true) :
    ∃ v, u8_from_str_radix16 [a, b] = .ok v := by
  unfold pairAccepted at h
  rw [Bool.and_eq_true, Bool.or_eq_true] at h
  obtain ⟨ha, hb⟩ := h
  rcases ha with ha | ha
  · exact ⟨_, u8_pair_hex a b ha hb⟩
  · have ha' : a = '+' := by simpa using ha
    subst ha'
    have hd := isHexDigit_some b hb
    have lb := toDigit16_lt b _ hd
    refine ⟨hexDigitVal b, ?_⟩
    simp only [u8_from_str_radix16, if_true]
    show fromStrRadixDigits [b] 0 = .ok (hexDigitVal b)
    simp only [fromStrRadixDigits, hd]
    rw [if_neg (by omega)]
    congr 1
    omega

theorem u8_pair_rejected (a b : Char) (h : pairAccepted a b = false) :
    ∃ e, u8_from_str_radix16 [a, b] = .error e := by
  unfold pairAccepted at h
  by_cases hp : a = '+'
  · subst hp
    have hb : isHexDigit b = false := by simpa using h
    have hbn := isHexDigit_none b hb
    refine ⟨.invalidDigit, ?_⟩
    simp only [u8_from_str_radix16, if_true]
    show fromStrRadixDigits [b] 0 = .error .invalidDigit
    simp only [fromStrRadixDigits, hbn]
  · by_cases hha : isHexDigit a = true
    · have hb : isHexDigit b = false := by simpa [hha] using h
      have hbn := isHexDigit_none b hb
      have hd := isHexDigit_some a hha
      have la := toDigit16_lt a _ hd
      refine ⟨.invalidDigit, ?_⟩
      simp only [u8_from_str_radix16]
      rw [if_neg hp]
      simp only [fromStrRadixDigits, hd, hbn]
      rw [if_neg (by omega)]
    · rw [Bool.not_eq_true] at hha
      have han := isHexDigit_none a hha
      refine ⟨.invalidDigit, ?_⟩
      simp only [u8_from_str_radix16]
      rw [if_neg hp]
      simp only [fromStrRadixDigits, han]

theorem strSlice_0_2 (a b : Char) (t : List Char) :
    strSlice (a :: b :: t) 0 2 = some [a, b] := by
  unfold strSlice
  rw [if_pos ⟨by omega, by simp only [List.length_cons]; omega⟩]
  rfl

theorem strSlice_2_4 (a b c d : Char) (t : List Char) :
    strSlice (a :: b :: c :: d :: t) 2 4 = some [c, d] := by
  unfold strSlice
  rw [if_pos ⟨by omega, by simp only [List.length_cons]; omega⟩]
  rfl

theorem strSlice_4_6 (a b c d e f : Char) (t : List Char) :
    strSlice (a :: b :: c :: d :: e :: f :: t) 4 6 = some [e, f] := by
  unfold strSlice
  rw [if_pos ⟨by omega, by simp only [List.length_cons]; omega⟩]
  rfl

theorem parse_no_err (l : List Char) (e : ParseIntError) : parse l ≠ .err e := by
  unfold parse
  intro h
  repeat' split at h
  all_goals exact RustResult.noConfusion h

theorem parse_short_panics (l : List Char) (h : l.length < 6) : parse l = .panicked := by
  rcases l with _ | ⟨a, _ | ⟨b, _ | ⟨c, _ | ⟨d, _ | ⟨e, _ | ⟨f, t⟩⟩⟩⟩⟩⟩
  · rfl
  · rfl
  · cases hu : u8_from_str_radix16 [a, b] with
    | error e1 => simp only [parse, strSlice_0_2, hu]
    | ok v => simp only [parse, strSlice_0_2, hu,
        show strSlice [a, b] 2 4 = none from rfl]
  · cases hu : u8_from_str_radix16 [a, b] with
    | error e1 => simp only [parse, strSlice_0_2, hu]
    | ok v => simp only [parse, strSlice_0_2, hu,
        show strSlice [a, b, c] 2 4 = none from rfl]
  · cases hu : u8_from_str_radix16 [a, b] with
    | error e1 => simp only [parse, strSlice_0_2, hu]
    | ok v =>
      cases hu2 : u8_from_str_radix16 [c, d] with
      | error e2 => simp only [parse, strSlice_0_2, hu, strSlice_2_4, hu2]
      | ok v2 => simp only [parse, strSlice_0_2, hu, strSlice_2_4, hu2,
          show strSlice [a, b, c, d] 4 6 = none from rfl]
  · cases hu : u8_from_str_radix16 [a, b] with
    | error e1 => simp only [parse, strSlice_0_2, hu]
    | ok v =>
      cases hu2 : u8_from_str_radix16 [c, d] with
      | error e2 => simp only [parse, strSlice_0_2, hu, strSlice_2_4, hu2]
      | ok v2 => simp only [parse, strSlice_0_2, hu, strSlice_2_4, hu2,
          show strSlice [a, b, c, d, e] 4 6 = none from rfl]
  · simp only [List.length_cons] at h
    omega

theorem parse_ok_of_wellFormed (l : List Char) (h : hexWellFormed l = true) :
    ∃ v, parse l = .ok v := by
  rcases l with _ | ⟨a, _ | ⟨b, _ | ⟨c, _ | ⟨d, _ | ⟨e, _ | ⟨f, t⟩⟩⟩⟩⟩⟩
  · exact Bool.noConfusion h
  · exact Bool.noConfusion h
  · exact Bool.noConfusion h
  · exact Bool.noConfusion h
  · exact Bool.noConfusion h
  · exact Bool.noConfusion h
  · simp only [hexWellFormed, Bool.and_eq_true] at h
    obtain ⟨⟨hab, hcd⟩, hef⟩ := h
    obtain ⟨v1, hv1⟩ := u8_pair_accepted a b hab
    obtain ⟨v2, hv2⟩ := u8_pair_accepted c d hcd
    obtain ⟨v3, hv3⟩ := u8_pair_accepted e f hef
    exact ⟨(v1, v2, v3),
      by simp only [parse, strSlice_0_2, strSlice_2_4, strSlice_4_6, hv1, hv2, hv3]⟩

theorem parse_panicked_iff (l : List Char) :
    parse l = .panicked ↔ hexWellFormed l = false := by
  rcases l with _ | ⟨a, _ | ⟨b, _ | ⟨c, _ | ⟨d, _ | ⟨e, _ | ⟨f, t⟩⟩⟩⟩⟩⟩
  · exact iff_of_true (parse_short_panics [] (by simp)) rfl
  · exact iff_of_true (parse_short_panics [a]
      (by simp only [List.length_cons, List.length_nil]; omega)) rfl
  · exact iff_of_true (parse_short_panics [a, b]
      (by simp only [List.length_cons, List.length_nil]; omega)) rfl
  · exact iff_of_true (parse_short_panics [a, b, c]
      (by simp only [List.length_cons, List.length_nil]; omega)) rfl
  · exact iff_of_true (parse_short_panics [a, b, c, d]
      (by simp only [List.length_cons, List.length_nil]; omega)) rfl
  · exact iff_of_true (parse_short_panics [a, b, c, d, e]
      (by simp only [List.length_cons, List.length_nil]; omega)) rfl
  · constructor
    · intro hp
      by_contra hw
      rw [Bool.not_eq_false] at hw
      obtain ⟨v, hv⟩ := parse_ok_of_wellFormed _ hw
      rw [hv] at hp
      exact RustResult.noConfusion hp
    · intro hw
      simp only [hexWellFormed] at hw
      cases hab : pairAccepted a b with
      | false =>
        obtain ⟨e1, he1⟩ := u8_pair_rejected a b hab
        simp only [parse, strSlice_0_2, he1]
      | true =>
        cases hcd : pairAccepted c d with
        | false =>
          obtain ⟨v1, hv1⟩ := u8_pair_accepted a b hab
          obtain ⟨e2, he2⟩ := u8_pair_rejected c d hcd
          simp only [parse, strSlice_0_2, hv1, strSlice_2_4, he2]
        | true =>
          cases hef : pairAccepted e f with
          | false =>
            obtain ⟨v1, hv1⟩ := u8_pair_accepted a b hab
            obtain ⟨v2, hv2⟩ := u8_pair_accepted c d hcd
            obtain ⟨e3, he3⟩ := u8_pair_rejected e f hef
            simp only [parse, strSlice_0_2, hv1, strSlice_2_4, hv2, strSlice_4_6, he3]
          | true => rw [hab, hcd, hef] at hw; simp at hw

/-- C2 amended: for every hex color string, the conversion never returns an
error value to the caller (the parse result is `.unwrap()`ed, so there is no
`ParseError` channel); instead it panics, and it panics exactly when the
string is shorter than 6 characters or one of the three leading 2-character
pairs is rejected by `u8::from_str_radix(_, 16)`. -/
theorem c2_hex_panics_iff_malformed (s : String) :
    (∀ e, (Color.HEX s).to_rgb ≠ .err e) ∧
    ((Color.HEX s).to_rgb = .panicked ↔ hexWellFormed s.data = false) := by
  cases hp : parse s.data with
  | ok v =>
    have hto : (Color.HEX s).to_rgb = .ok v := by simp only [Color.to_rgb, hp]
    have hw : hexWellFormed s.data = true := by
      by_contra hf
      rw [Bool.not_eq_true] at hf
      rw [(parse_panicked_iff s.data).mpr hf] at hp
      exact RustResult.noConfusion hp
    refine ⟨fun e hc => ?_, ?_⟩
    · rw [hto] at hc
      exact RustResult.noConfusion hc
    · rw [hto, hw]
      simp
  | err e0 => exact absurd hp (parse_no_err s.data e0)
  | panicked =>
    have hto : (Color.HEX s).to_rgb = .panicked := by simp only [Color.to_rgb, hp]
    refine ⟨fun e hc => ?_, ?_⟩
    · rw [hto] at hc
      exact RustResult.noConfusion hc
    · rw [hto]
      exact iff_of_true rfl ((parse_panicked_iff s.data).mp hp)

theorem c2_witness :
    (Color.HEX "gg0000").to_rgb ≠ .err ParseIntError.invalidDigit ∧
    ((Color.HEX "gg0000").to_rgb = .panicked ↔ hexWellFormed "gg0000".data = false) :=
  ⟨(c2_hex_panics_iff_malformed "gg0000").1 ParseIntError.invalidDigit,
    (c2_hex_panics_iff_malformed "gg0000").2⟩

/-- C9: for every string with at least six characters whose first six form
three hexadecimal-digit pairs, `parse` succeeds and returns the triple decoded
from those first six characters, no matter what trailing characters follow. -/
theorem c9_trailing_ignored (a b c d e f : Char) (t : List Char)
    (ha : isHexDigit a = true) (hb : isHexDigit b = true) (hc : isHexDigit c = true)
    (hd : isHexDigit d = true) (he : isHexDigit e = true) (hf : isHexDigit f = true) :
    parse (a :: b :: c :: d :: e :: f :: t) =
      .ok (hexDigitVal a * 16 + hexDigitVal b, hexDigitVal c * 16 + hexDigitVal d,
        hexDigitVal e * 16 + hexDigitVal f) := by
  simp only [parse, strSlice_0_2, strSlice_2_4, strSlice_4_6,
    u8_pair_hex a b ha hb, u8_pair_hex c d hc hd, u8_pair_hex e f he hf]

theorem c9_witness :
    isHexDigit 'f' = true ∧
    parse ['f', 'f', '8', '0', 'a', '1', 'x', 'y', 'z'] =
      .ok (hexDigitVal 'f' * 16 + hexDigitVal 'f', hexDigitVal '8' * 16 + hexDigitVal '0',
        hexDigitVal 'a' * 16 + hexDigitVal '1') ∧
    parse ['f', 'f', '8', '0', 'a', '1', 'x', 'y', 'z'] = .ok (255, 128, 161) :=
  ⟨by decide,
    c9_trailing_ignored 'f' 'f' '8' '0' 'a' '1' ['x', 'y', 'z']
      (by decide) (by decide) (by decide) (by decide) (by decide) (by decide),
    by decide⟩

/-- C4 counterexample: with a callback returning a malformed hex color, the
frame panics — `each` returns no pulse trace at all, so the callback is not
invoked for every index and the emission is not led_count * 24 bits. -/
theorem c4_counterexample :
    (LedStrip.mk 1).each (fun _ => Color.HEX "x") = .panicked ∧
    RustResult.isOk ((LedStrip.mk 1).each (fun _ => Color.HEX "x")) = false := by
  refine ⟨by decide, by decide⟩
